import Mathlib

/-!
Verification of the AI fit-scoring pipeline of the hy_backend job-board
repository (`jobseaker/services/ai_matcher.py`, `jobseaker/models.py`,
`jobseaker/views.py`), via a shallow embedding of its operations.

Conventions of the embedding:
* Python strings are `String` / `List Char`; Python exceptions become
  `Except` values, tagged by exception class where the control flow
  distinguishes classes (`PyErr` below);
* machine floats of the JSON payload are modelled by `ℚ` (the scores in
  play are small decimals, for which the float/rational distinction is
  irrelevant to the stated claims);
* the OpenAI network call is an oracle parameter `Nat → Except String
  (Option String)` giving, per attempt index, either a raised transport
  exception (with message) or the `response.choices[0].message.content`
  field (`Option String`, since the SDK types it `Optional[str]`);
* `json.loads` is an oracle parameter `String → Except String Payload`
  (either a `JSONDecodeError` message or a parsed payload);
* wall-clock time is an explicit parameter where the code stores it.
-/

namespace HyBackend

/-- Exception classes of the Python code that the `except` clauses of
`JobAIAnalyzer.analyze` distinguish: `AIMatcherException`,
`django.core.exceptions.ValidationError`, and any other (unexpected)
exception. -/
inductive PyErr where
  | matcher (msg : String)
  | validationError (msg : String)
  | other (msg : String)
deriving Repr, DecidableEq

/-! ### Python string primitives (`str.strip`, `re`) -/

/-- Python's whitespace class `\s` restricted to ASCII: space, tab,
newline, carriage return, vertical tab, form feed.  (All inputs relevant
to the claims are ASCII.) -/
def isPySpace (c : Char) : Bool :=
  c = ' ' || c = '\t' || c = '\n' || c = '\r' || c = '\x0b' || c = '\x0c'

/-- Remove trailing whitespace (the right half of `str.strip()`). -/
def dropTrailing (l : List Char) : List Char :=
  (l.reverse.dropWhile isPySpace).reverse

/-- Python `str.strip()` on a list of characters. -/
def pyStrip (l : List Char) : List Char :=
  dropTrailing (l.dropWhile isPySpace)

/-- Python `str.strip()` on a `String`. -/
def pyStripS (s : String) : String :=
  String.mk (pyStrip s.data)

/-- Does the list start with three consecutive backticks? -/
def startsTriple (l : List Char) : Bool :=
  l.take 3 = ['`', '`', '`']

/-- Does the list contain three consecutive backticks anywhere?
(Substring test for "```".) -/
def hasTriple : List Char → Bool
  | [] => false
  | c :: cs => startsTriple (c :: cs) || hasTriple cs

/-- Does the list start with six consecutive backticks? -/
def startsSix (l : List Char) : Bool :=
  l.take 6 = ['`', '`', '`', '`', '`', '`']

/-- Does the list contain six consecutive backticks anywhere?  This is
`re.search(r'``````', response)`: the pattern of
`JobAIAnalyzer._clean_json_response` is six literal backticks and has no
capture group. -/
def hasSix : List Char → Bool
  | [] => false
  | c :: cs => startsSix (c :: cs) || hasSix cs

/-- Meaning of `$` in a `re.MULTILINE` pattern: end of string or just before a
newline. -/
def atLineEnd : List Char → Bool
  | [] => true
  | c :: _ => c = '\n'

/-- One match attempt of the pattern `\s*```$` at the head of `l`
(leftmost position).  `\s*` is greedy and the only viable backtrack is
the maximal whitespace run (a shorter run leaves a whitespace character
where a backtick is required), so the match succeeds iff after the
maximal whitespace run come three backticks followed by a line end.
Returns the rest of the string after the matched span. -/
def fenceMatchAt (l : List Char) : Option (List Char) :=
  let d := l.dropWhile isPySpace
  if startsTriple d && atLineEnd (d.drop 3) then some (d.drop 3) else none

/-- Fuelled scan of `re.sub(r'\s*```$', '', response, flags=re.MULTILINE)`:
scan left to right; at each position try the pattern (`fenceMatchAt`); on
a match, delete the matched span and continue scanning after it
(`re.sub` never rescans text to the left of or inside a replaced span);
otherwise keep the character and move one position right.  The fuel is a
structural-recursion device only: every step strictly shrinks the list
(`fenceMatchAt_length`), so fuel `l.length` never runs out. -/
def subFenceEndF : Nat → List Char → List Char
  | 0, l => l
  | _ + 1, [] => []
  | n + 1, c :: cs =>
    match fenceMatchAt (c :: cs) with
    | some rest => subFenceEndF n rest
    | none => c :: subFenceEndF n cs

/-- Model of `re.sub(r'\s*```$', '', response, flags=re.MULTILINE)`. -/
def subFenceEnd (l : List Char) : List Char :=
  subFenceEndF l.length l

/-! ### JSON payloads and `_validate_ai_output` -/

/-- The values `json.loads` can produce for a field of the response
object (objects nested below top level never occur in the fields the
claims inspect, so arrays carry opaque strings). -/
inductive JVal where
  | num (q : ℚ)
  | bool (b : Bool)
  | str (s : String)
  | arr (elems : List String)
  | null
deriving Repr, DecidableEq

/-- The parsed top-level JSON object (`parsed_data: Dict[str, Any]`). -/
abbrev Payload : Type := List (String × JVal)

/-- Python `str(value)` as interpolated into f-string error messages.
The exact numeric/list rendering of Python is abbreviated here; no claim
depends on these interpolated fragments. -/
def pyRender : JVal → String
  | .num q => toString q
  | .bool b => if b then "True" else "False"
  | .str s => s
  | .arr _ => "[...]"
  | .null => "None"

/-- Rendering of `str(parsed_data.get(field))`: a missing key renders as `None`. -/
def pyRenderOpt : Option JVal → String
  | none => "None"
  | some v => pyRender v

/-- The `required_fields` list of `_validate_ai_output` (verbatim order). -/
def required_fields : List String :=
  ["fit_score", "fit_level", "is_fit", "skills_match_score",
   "experience_match_score", "education_match_score", "location_match_score",
   "remarks", "strengths", "weaknesses", "missing_skills",
   "matching_skills", "recommendations", "interview_recommendation",
   "suggested_interview_questions", "potential_concerns",
   "salary_expectation_alignment"]

/-- The `score_fields` list of `_validate_ai_output` (verbatim order). -/
def score_fields : List String :=
  ["fit_score", "skills_match_score", "experience_match_score",
   "education_match_score", "location_match_score"]

/-- The `valid_fit_levels` list of `_validate_ai_output`. -/
def valid_fit_levels : List String := ["excellent", "good", "moderate", "poor"]

/-- The `boolean_fields` list of `_validate_ai_output`. -/
def boolean_fields : List String := ["is_fit", "interview_recommendation"]

/-- Test `isinstance(score, (int, float)) and 0 <= score <= 100`.  Python's
`bool` is a subclass of `int` (`True == 1`, `False == 0`), so a JSON
boolean passes both the isinstance test and the range test. -/
def scoreOk : Option JVal → Bool
  | some (.num q) => decide (0 ≤ q) && decide (q ≤ 100)
  | some (.bool _) => true
  | _ => false

/-- The first loop of `_validate_ai_output`: `field in parsed_data` for
each required field, raising on the first missing one. -/
def checkRequired (fields : List String) (p : Payload) : Except String Unit :=
  match fields with
  | [] => .ok ()
  | f :: rest =>
    if (p.lookup f).isSome then checkRequired rest p
    else .error ("Missing required field: " ++ f)

/-- The second loop of `_validate_ai_output`: numeric type and [0,100]
range of each score field, raising on the first bad one. -/
def checkScores (fields : List String) (p : Payload) : Except String Unit :=
  match fields with
  | [] => .ok ()
  | f :: rest =>
    if scoreOk (p.lookup f) then checkScores rest p
    else .error ("Invalid score for " ++ f ++ ": " ++ pyRenderOpt (p.lookup f))

/-- Test `parsed_data.get('fit_level') not in valid_fit_levels` (a non-string
value is never equal to a string in the list). -/
def fitLevelOk (v : Option JVal) : Bool :=
  match v with
  | some (.str s) => valid_fit_levels.contains s
  | _ => false

/-- The third check of `_validate_ai_output`. -/
def checkFitLevel (p : Payload) : Except String Unit :=
  if fitLevelOk (p.lookup "fit_level") then .ok ()
  else .error ("Invalid fit_level: " ++ pyRenderOpt (p.lookup "fit_level"))

/-- Test `isinstance(parsed_data.get(field), bool)` — strict boolean. -/
def isBoolVal : Option JVal → Bool
  | some (.bool _) => true
  | _ => false

/-- The fourth loop of `_validate_ai_output`. -/
def checkBooleans (fields : List String) (p : Payload) : Except String Unit :=
  match fields with
  | [] => .ok ()
  | f :: rest =>
    if isBoolVal (p.lookup f) then checkBooleans rest p
    else .error ("Field " ++ f ++ " must be boolean")

/-- Model of `JobAIAnalyzer._validate_ai_output`: the four checks in source
order, failing fast on the first violation (any `raise
AIMatcherException(...)` aborts the whole validation). -/
def validate_ai_output (p : Payload) : Except String Unit := do
  checkRequired required_fields p
  checkScores score_fields p
  checkFitLevel p
  checkBooleans boolean_fields p

/-- Model of `JobAIAnalyzer._clean_json_response`.  The code raises
`AIMatcherException` on a falsy (empty) input; then strips; then runs
`re.search(r'``````', response)` — six literal backticks, *no capture
group* — and on a hit calls `json_match.group(1)`, which raises
`IndexError` (an unexpected exception, `PyErr.other`); otherwise it
removes `\s*```$` matches (MULTILINE) and strips again. -/
def clean_json_response (response : String) : Except PyErr String :=
  if response.data = [] then
    .error (.matcher "Empty response from OpenAI")
  else
    let r := pyStrip response.data
    if hasSix r then
      .error (.other "no such group")
    else
      .ok (String.mk (pyStrip (subFenceEnd r)))

/-! ### LLM gateway: `_call_openai_api` -/

/-- The `AI_MODEL_VERSION` constant of `ai_matcher.py`. -/
def AI_MODEL_VERSION : String := "gpt-4o-mini"

/-- The `MAX_RETRIES` constant of `ai_matcher.py`. -/
def MAX_RETRIES : Nat := 3

/-- The tail of `_call_openai_api`'s `try` block once the SDK call has
returned: `raw_output = response.choices[0].message.content` (typed
`Optional[str]`); `if not raw_output: raise AIMatcherException(...)`
(falsy means `None` or the empty string); `return raw_output.strip()`. -/
def extract_response (content : Option String) : Except String String :=
  match content with
  | none => .error "Empty response from OpenAI API"
  | some s =>
    if s.data = [] then .error "Empty response from OpenAI API"
    else .ok (pyStripS s)

/-- One attempt of `_call_openai_api`.  The
`oracle` gives the outcome of the SDK call on each attempt index:
`.error e` is a raised transport/timeout/rate-limit exception with
message `e`, `.ok content` is a response whose
`choices[0].message.content` is `content`.  The empty-content
`AIMatcherException` is raised inside the `try`, so it is caught and
retried exactly like a transport failure. -/
def attempt_outcome (oracle : Nat → Except String (Option String))
    (i : Nat) : Except String String :=
  match oracle i with
  | .error e => .error e
  | .ok content => extract_response content

/-- Model of `JobAIAnalyzer._call_openai_api(input_text, retry_count)`: the
retry loop.  Returns the list of `time.sleep` durations (seconds)
performed, and the result: the stripped text, or the terminal
`AIMatcherException` built from the *last* attempt's exception
message. -/
def call_openai_api (oracle : Nat → Except String (Option String))
    (retry_count : Nat) : List Nat × Except PyErr String :=
  match attempt_outcome oracle retry_count with
  | .ok s => ([], .ok s)
  | .error e =>
    if retry_count < MAX_RETRIES - 1 then
      let rest := call_openai_api oracle (retry_count + 1)
      (2 ^ retry_count :: rest.1, rest.2)
    else
      ([], .error (.matcher
        ("OpenAI API failed after " ++ toString MAX_RETRIES ++ " attempts: " ++ e)))
termination_by MAX_RETRIES - retry_count
decreasing_by omega

/-! ### The persisted `AIRemarks` record (`jobseaker/models.py`) -/

/-- The fields of one `AIRemarks` row that the pipeline writes.
Nullable Django columns are `Option`; `DecimalField` scores are `ℚ`;
`JSONField` list columns hold the raw JSON values assigned to them;
nullable timestamps are modelled by whether they are set.  Defaults are
the Django field defaults. -/
structure AIRemarksRec where
  analysis_status : String := "pending"
  ai_model_version : String := ""
  is_fit : Option Bool := none
  fit_score : Option ℚ := none
  fit_level : String := "unknown"
  skills_match_score : Option ℚ := none
  experience_match_score : Option ℚ := none
  education_match_score : Option ℚ := none
  location_match_score : Option ℚ := none
  remarks : String := ""
  strengths : JVal := .arr []
  weaknesses : JVal := .arr []
  missing_skills : JVal := .arr []
  matching_skills : JVal := .arr []
  recommendations : JVal := .arr []
  interview_recommendation : Option Bool := none
  suggested_interview_questions : JVal := .arr []
  potential_concerns : JVal := .arr []
  salary_expectation_alignment : String := ""
  confidence_score : Option ℚ := none
  analysis_duration_seconds : Option Int := none
  error_message : String := ""
  analyzed_at : Bool := false
deriving Repr, DecidableEq

/-- The `AIRemarks.FitLevel` choice values. -/
def fitLevelChoices : List String :=
  ["excellent", "good", "moderate", "poor", "unknown"]

/-- The `AIRemarks.AnalysisStatus` choice values. -/
def statusChoices : List String := ["pending", "completed", "failed", "skipped"]

/-- The `salary_expectation_alignment` choice values (the field is
`blank=True`, so the empty string is also allowed). -/
def salaryChoices : List String := ["aligned", "too_high", "too_low", "unknown"]

/-- A nullable 0–100 `DecimalField` with `MinValueValidator(0),
MaxValueValidator(100)`: Django runs validators only on non-null
values. -/
def decimalScoreOk : Option ℚ → Bool
  | none => true
  | some q => decide (0 ≤ q) && decide (q ≤ 100)

/-- Django `Model.clean_fields()` for the columns the pipeline writes:
the five score columns and `confidence_score` must be in range when
present, `analysis_duration_seconds` (a `PositiveIntegerField`) must be
non-negative when present, and the three choice columns must hold one of
their declared values.  (`max_length`/`max_digits` limits are not
modelled; no claim involves them.)  Django accumulates field errors into
one `ValidationError`; the `Except` embedding reports the condition as a
single error. -/
def clean_fields (r : AIRemarksRec) : Except PyErr Unit :=
  if decimalScoreOk r.fit_score && decimalScoreOk r.skills_match_score &&
     decimalScoreOk r.experience_match_score &&
     decimalScoreOk r.education_match_score &&
     decimalScoreOk r.location_match_score &&
     decimalScoreOk r.confidence_score &&
     (match r.analysis_duration_seconds with
      | none => true
      | some d => decide (0 ≤ d)) &&
     fitLevelChoices.contains r.fit_level &&
     statusChoices.contains r.analysis_status &&
     (r.salary_expectation_alignment = "" ||
      salaryChoices.contains r.salary_expectation_alignment) then
    .ok ()
  else
    .error (.validationError "field validation failed")

/-- Model of `AIRemarks.clean()`: the fit-score/fit-level consistency checks, then
the `analyzed_at` back-fill for completed records.  A raised
`ValidationError` aborts before the back-fill. -/
def airemarks_clean (r : AIRemarksRec) : Except PyErr AIRemarksRec :=
  match r.fit_score with
  | some q =>
    if 80 ≤ q ∧ ¬ (r.fit_level = "excellent" ∨ r.fit_level = "good") then
      .error (.validationError
        "High fit score should correspond to Excellent or Good fit level")
    else if q < 40 ∧ r.fit_level = "excellent" then
      .error (.validationError "Low fit score cannot be Excellent fit level")
    else
      .ok (if r.analysis_status = "completed" && !r.analyzed_at then
             { r with analyzed_at := true } else r)
  | none =>
    .ok (if r.analysis_status = "completed" && !r.analyzed_at then
           { r with analyzed_at := true } else r)

/-- Model of `AIRemarks.save()`: `self.full_clean()` (field validators, then
`clean()`), then the actual row write.  Returns the row as written, or
the `ValidationError`. -/
def save_airemarks (r : AIRemarksRec) : Except PyErr AIRemarksRec := do
  let _ ← clean_fields r
  airemarks_clean r

/-! ### The orchestrator: `JobAIAnalyzer.analyze` -/

/-- Model of `JobAIAnalyzer._create_ai_remarks_object()`. -/
def create_ai_remarks_object : AIRemarksRec :=
  { analysis_status := "pending", ai_model_version := AI_MODEL_VERSION }

/-- Python `float(value)` on a value that `_validate_ai_output` has accepted as
a score (`int`, `float` or `bool`). -/
def pyFloat : JVal → ℚ
  | .num q => q
  | .bool b => if b then 1 else 0
  | _ => 0

/-- Model of `parsed_data.get(key, default)`. -/
def getD (p : Payload) (k : String) (d : JVal) : JVal :=
  (p.lookup k).getD d

/-- Model of `JobAIAnalyzer._populate_ai_remarks(remarks, parsed_data,
analysis_duration)`.  Runs only after `_validate_ai_output`, so the
boolean fields are JSON booleans, the score fields numeric, and
`fit_level` a string; the conversions below are exact on that domain. -/
def populate_ai_remarks (r : AIRemarksRec) (p : Payload)
    (analysis_duration : Int) : AIRemarksRec :=
  { r with
    is_fit := match p.lookup "is_fit" with
      | some (.bool b) => some b
      | _ => none
    fit_score := some (pyFloat (getD p "fit_score" (.num 0)))
    fit_level := match getD p "fit_level" (.str "unknown") with
      | .str s => s
      | v => pyRender v
    skills_match_score := some (pyFloat (getD p "skills_match_score" (.num 0)))
    experience_match_score :=
      some (pyFloat (getD p "experience_match_score" (.num 0)))
    education_match_score :=
      some (pyFloat (getD p "education_match_score" (.num 0)))
    location_match_score :=
      some (pyFloat (getD p "location_match_score" (.num 0)))
    remarks := match getD p "remarks" (.str "") with
      | .str s => s
      | v => pyRender v
    strengths := getD p "strengths" (.arr [])
    weaknesses := getD p "weaknesses" (.arr [])
    missing_skills := getD p "missing_skills" (.arr [])
    matching_skills := getD p "matching_skills" (.arr [])
    recommendations := getD p "recommendations" (.arr [])
    interview_recommendation := match getD p "interview_recommendation" (.bool false) with
      | .bool b => some b
      | _ => none
    suggested_interview_questions := getD p "suggested_interview_questions" (.arr [])
    potential_concerns := getD p "potential_concerns" (.arr [])
    salary_expectation_alignment := match getD p "salary_expectation_alignment" (.str "unknown") with
      | .str s => s
      | v => pyRender v
    analysis_status := "completed"
    analyzed_at := true
    confidence_score := some 95
    analysis_duration_seconds := some analysis_duration }

/-- The `try` block of `JobAIAnalyzer.analyze()`: gateway call, fence
cleanup, `json.loads` (whose `JSONDecodeError` the code catches and
re-raises as `AIMatcherException`), schema validation, population, and
`remarks.save()`.  Parameters: `jsonParse` is `json.loads` (`.error` =
`JSONDecodeError` message); `oracle` drives the OpenAI call per attempt;
`elapsed` is the wall-clock duration the code reads from
`time.time()`. -/
def analyze_pipeline (jsonParse : String → Except String Payload)
    (oracle : Nat → Except String (Option String))
    (elapsed : Int) : Except PyErr AIRemarksRec := do
  let raw ← (call_openai_api oracle 0).2
  let cleaned ← clean_json_response raw
  let parsed ← match jsonParse cleaned with
    | .ok d => Except.ok d
    | .error e => Except.error (.matcher ("Invalid JSON from OpenAI: " ++ e))
  let _ ← (validate_ai_output parsed).mapError PyErr.matcher
  save_airemarks (populate_ai_remarks create_ai_remarks_object parsed elapsed)

/-- The record written by the `except Exception` handler of `analyze`:
the pending record flipped to `failed` with the exception message and
the elapsed duration. -/
def failed_record (m : String) (elapsed : Int) : AIRemarksRec :=
  { create_ai_remarks_object with
    analysis_status := "failed"
    error_message := m
    analysis_duration_seconds := some elapsed }

/-- Model of `JobAIAnalyzer.analyze()`.  Returns the list of records
persisted during the call (in order) and the outcome.  Control flow of
the source's `except` clauses: known exceptions (`AIMatcherException`,
`ValidationError`) are re-raised untouched and persist nothing; any
other exception persists a `failed` record (best effort — a failing
failure-path save is swallowed by the inner `try`) and is wrapped in a
terminal `AIMatcherException`. -/
def analyze (jsonParse : String → Except String Payload)
    (oracle : Nat → Except String (Option String))
    (elapsed : Int) : List AIRemarksRec × Except PyErr AIRemarksRec :=
  match analyze_pipeline jsonParse oracle elapsed with
  | .ok rec => ([rec], .ok rec)
  | .error (.matcher m) => ([], .error (.matcher m))
  | .error (.validationError m) => ([], .error (.validationError m))
  | .error (.other m) =>
    match save_airemarks (failed_record m elapsed) with
    | .ok rec =>
      ([rec], .error (.matcher ("Unexpected error during AI analysis: " ++ m)))
    | .error _ =>
      ([], .error (.matcher ("Unexpected error during AI analysis: " ++ m)))

/-! ### The analyze-if-absent wrapper (`jobseaker/views.py`) and batch -/

/-- One persisted `AIRemarks` row with its identifying pair
(`job_post`, `job_seeker`); `Meta.unique_together = ['job_post',
'job_seeker']`. -/
structure StoredRow where
  job : Nat
  seeker : Nat
  record : AIRemarksRec
deriving Repr, DecidableEq

/-- Key match for a (job, candidate) pair. -/
def rowMatches (j s : Nat) (row : StoredRow) : Bool :=
  row.job = j && row.seeker = s

/-- All persisted rows for a pair. -/
def rowsFor (store : List StoredRow) (j s : Nat) : List StoredRow :=
  store.filter (rowMatches j s)

/-- Model of `AIRemarks.objects.filter(job_post=…, job_seeker=…,
analysis_status=COMPLETED).first()`. -/
def find_completed (store : List StoredRow) (j s : Nat) : Option StoredRow :=
  store.find? (fun row => rowMatches j s row && row.record.analysis_status = "completed")

/-- Model of `views.analyze_application(job_post_id, seeker)`: if a completed
record for the pair exists, use it without re-analysing; otherwise run
`JobAIAnalyzer(...).analyze()` (abstracted as `runAnalyze`, returning
the records it persists and its outcome).  Any exception is re-wrapped
in `Exception(f"Application analysis failed: {e}")`.  Returns the new
store and the record whose fields the view serialises. -/
def analyze_application
    (runAnalyze : Unit → List AIRemarksRec × Except PyErr AIRemarksRec)
    (store : List StoredRow) (j s : Nat) :
    List StoredRow × Except String AIRemarksRec :=
  match find_completed store j s with
  | some row => (store, .ok row.record)
  | none =>
    match runAnalyze () with
    | (saved, .ok rec) =>
      (store ++ saved.map (fun r => ⟨j, s, r⟩), .ok rec)
    | (saved, .error e) =>
      (store ++ saved.map (fun r => ⟨j, s, r⟩),
       .error ("Application analysis failed: " ++
         (match e with
          | .matcher m => m
          | .validationError m => m
          | .other m => m)))

/-- The wrapper `analyze_application` invoked `n` times in sequence for the same
pair, threading the store. -/
def iterate_analyze
    (runAnalyze : Unit → List AIRemarksRec × Except PyErr AIRemarksRec)
    (j s : Nat) : Nat → List StoredRow → List StoredRow
  | 0, store => store
  | n + 1, store =>
    iterate_analyze runAnalyze j s n (analyze_application runAnalyze store j s).1

/-- Model of `analyze_multiple_candidates(job_post, job_seekers)`: one
`try/except` per candidate; a success appends the record to `results`,
any exception only logs and continues. `runOne` abstracts
`JobAIAnalyzer(job_post, job_seeker).analyze()` for one candidate. -/
def analyze_multiple_candidates {α : Type}
    (runOne : α → Except PyErr AIRemarksRec) : List α → List AIRemarksRec
  | [] => []
  | c :: rest =>
    match runOne c with
    | .ok r => r :: analyze_multiple_candidates runOne rest
    | .error _ => analyze_multiple_candidates runOne rest

/-! ### Concrete sample data used by witnesses and counterexamples -/

/-- A fully valid parsed response payload (all 17 fields, scores in
range). -/
def sample_payload : Payload :=
  [("fit_score", .num 82), ("fit_level", .str "good"), ("is_fit", .bool true),
   ("skills_match_score", .num 70), ("experience_match_score", .num 60),
   ("education_match_score", .num 90), ("location_match_score", .num 100),
   ("remarks", .str "Solid candidate."), ("strengths", .arr ["Python"]),
   ("weaknesses", .arr []), ("missing_skills", .arr ["SQL"]),
   ("matching_skills", .arr ["Python"]), ("recommendations", .arr []),
   ("interview_recommendation", .bool true),
   ("suggested_interview_questions", .arr ["Q1", "Q2", "Q3"]),
   ("potential_concerns", .arr []),
   ("salary_expectation_alignment", .str "aligned")]

/-- The same payload except that `fit_score` is the JSON boolean `true`
(a non-numeric JSON value). -/
def sample_payload_bool_score : Payload :=
  [("fit_score", .bool true), ("fit_level", .str "good"), ("is_fit", .bool true),
   ("skills_match_score", .num 70), ("experience_match_score", .num 60),
   ("education_match_score", .num 90), ("location_match_score", .num 100),
   ("remarks", .str "Solid candidate."), ("strengths", .arr ["Python"]),
   ("weaknesses", .arr []), ("missing_skills", .arr ["SQL"]),
   ("matching_skills", .arr ["Python"]), ("recommendations", .arr []),
   ("interview_recommendation", .bool true),
   ("suggested_interview_questions", .arr ["Q1", "Q2", "Q3"]),
   ("potential_concerns", .arr []),
   ("salary_expectation_alignment", .str "aligned")]

/-- The same payload except that `fit_score` is 150 (out of range). -/
def sample_payload_150 : Payload :=
  [("fit_score", .num 150), ("fit_level", .str "good"), ("is_fit", .bool true),
   ("skills_match_score", .num 70), ("experience_match_score", .num 60),
   ("education_match_score", .num 90), ("location_match_score", .num 100),
   ("remarks", .str "Solid candidate."), ("strengths", .arr ["Python"]),
   ("weaknesses", .arr []), ("missing_skills", .arr ["SQL"]),
   ("matching_skills", .arr ["Python"]), ("recommendations", .arr []),
   ("interview_recommendation", .bool true),
   ("suggested_interview_questions", .arr ["Q1", "Q2", "Q3"]),
   ("potential_concerns", .arr []),
   ("salary_expectation_alignment", .str "aligned")]

/-- The record a successful `analyze` run over `sample_payload`
produces. -/
def sample_record : AIRemarksRec :=
  populate_ai_remarks create_ai_remarks_object sample_payload 0

/-- A completed record satisfying every `save` validation. -/
def sample_completed_rec : AIRemarksRec :=
  { analysis_status := "completed", ai_model_version := AI_MODEL_VERSION,
    fit_score := some 90, fit_level := "excellent", analyzed_at := true }

/-! ## Theorems

First the helper lemmas shared between claims, then one subsection per
claim. -/

theorem startsTriple_length {l : List Char} (h : startsTriple l = true) :
    3 ≤ l.length := by
  unfold startsTriple at h
  simp only [decide_eq_true_eq] at h
  have : (l.take 3).length = 3 := by rw [h]; rfl
  simp at this
  omega

theorem fenceMatchAt_length {l r : List Char} (h : fenceMatchAt l = some r) :
    r.length < l.length := by
  unfold fenceMatchAt at h
  have hsub : (l.dropWhile isPySpace).length ≤ l.length :=
    (List.dropWhile_sublist _).length_le
  by_cases hc : (startsTriple (l.dropWhile isPySpace) &&
      atLineEnd ((l.dropWhile isPySpace).drop 3)) = true
  · simp only [hc, if_true] at h
    have h3 : 3 ≤ (l.dropWhile isPySpace).length :=
      startsTriple_length (Bool.and_elim_left hc)
    have hr : (l.dropWhile isPySpace).drop 3 = r := Option.some.inj h
    have : r.length = (l.dropWhile isPySpace).length - 3 := by
      rw [← hr]; simp
    omega
  · simp only [Bool.not_eq_true] at hc
    simp only [hc, if_false] at h
    exact absurd h (by simp)

theorem dropTrailing_eq_rdropWhile (l : List Char) :
    dropTrailing l = l.rdropWhile isPySpace := rfl

/-- After stripping the front, stripping the front again is a no-op. -/
theorem dropWhile_dropTrailing_dropWhile (l : List Char) :
    (dropTrailing (l.dropWhile isPySpace)).dropWhile isPySpace =
      dropTrailing (l.dropWhile isPySpace) := by
  set m := l.dropWhile isPySpace with hm
  have hmm : m.dropWhile isPySpace = m := List.dropWhile_idempotent isPySpace l
  rcases hdt : dropTrailing m with _ | ⟨c, t⟩
  · rfl
  · have hpre : dropTrailing m <+: m := by
      rw [dropTrailing_eq_rdropWhile]; exact List.rdropWhile_prefix _ _
    rw [hdt] at hpre
    obtain ⟨rest, hrest⟩ := hpre
    have hc : isPySpace c = false := by
      by_contra hcc
      rw [Bool.not_eq_false] at hcc
      rw [← hrest, List.cons_append, List.dropWhile_cons_of_pos hcc] at hmm
      have hle := (List.dropWhile_sublist (l := t ++ rest) isPySpace).length_le
      have hlen := congrArg List.length hmm
      rw [List.length_cons] at hlen
      omega
    simp [List.dropWhile_cons, hc]

/-- Python `strip` is idempotent. -/
theorem pyStrip_idem (l : List Char) : pyStrip (pyStrip l) = pyStrip l := by
  show dropTrailing ((dropTrailing (l.dropWhile isPySpace)).dropWhile isPySpace)
      = dropTrailing (l.dropWhile isPySpace)
  rw [dropWhile_dropTrailing_dropWhile]
  rw [dropTrailing_eq_rdropWhile, dropTrailing_eq_rdropWhile,
    List.rdropWhile_idempotent]

theorem startsTriple_of_startsSix {l : List Char} (h : startsSix l = true) :
    startsTriple l = true := by
  unfold startsSix at h
  unfold startsTriple
  simp only [decide_eq_true_eq] at h ⊢
  have : l.take 3 = (l.take 6).take 3 := by
    rw [List.take_take]
    norm_num
  rw [this, h]
  rfl

theorem hasSix_eq_false_of_hasTriple {l : List Char}
    (h : hasTriple l = false) : hasSix l = false := by
  induction l with
  | nil => rfl
  | cons c cs ih =>
    simp only [hasTriple, Bool.or_eq_false_iff] at h
    simp only [hasSix, Bool.or_eq_false_iff]
    refine ⟨?_, ih h.2⟩
    by_contra hs
    rw [Bool.not_eq_false] at hs
    exact absurd (startsTriple_of_startsSix hs) (by simp [h.1])

theorem hasTriple_of_startsTriple {l : List Char}
    (h : startsTriple l = true) : hasTriple l = true := by
  cases l with
  | nil => exact absurd h (by decide)
  | cons c cs => simp [hasTriple, h]

theorem hasTriple_of_suffix {l₁ l₂ : List Char} (h : l₁ <:+ l₂)
    (ht : hasTriple l₁ = true) : hasTriple l₂ = true := by
  obtain ⟨t, rfl⟩ := h
  induction t with
  | nil => exact ht
  | cons a t ih => simp [hasTriple, ih]

theorem fenceMatchAt_eq_none_of_no_triple {l : List Char}
    (h : hasTriple l = false) : fenceMatchAt l = none := by
  unfold fenceMatchAt
  have hst : startsTriple (l.dropWhile isPySpace) = false := by
    by_contra hs
    rw [Bool.not_eq_false] at hs
    have := hasTriple_of_suffix (List.dropWhile_suffix isPySpace)
      (hasTriple_of_startsTriple hs)
    simp [h] at this
  simp [hst]

theorem subFenceEndF_of_no_triple {l : List Char} (h : hasTriple l = false) :
    ∀ n, subFenceEndF n l = l := by
  intro n
  induction n generalizing l with
  | zero => rfl
  | succ n ih =>
    cases l with
    | nil => rfl
    | cons c cs =>
      simp only [hasTriple, Bool.or_eq_false_iff] at h
      have hcs : hasTriple (c :: cs) = false := by
        simp [hasTriple, h.1, h.2]
      rw [subFenceEndF, fenceMatchAt_eq_none_of_no_triple hcs, ih h.2]

theorem subFenceEnd_of_no_triple {l : List Char} (h : hasTriple l = false) :
    subFenceEnd l = l :=
  subFenceEndF_of_no_triple h _

theorem clean_json_response_ok {s : String} (h1 : ¬ s.data = [])
    (h2 : hasSix (pyStrip s.data) = false) :
    clean_json_response s =
      .ok (String.mk (pyStrip (subFenceEnd (pyStrip s.data)))) := by
  unfold clean_json_response
  simp [h1, h2]

/-! ### Claim C2 -/

/-- C2: evaluation of the normalizer at the spec's own example.  The
code's fence regex `r'``````'` (six literal backticks, no capture group)
never matches a real fenced block, so the response
`'```json\n{"a": 1}\n```'` is NOT normalized to the bare JSON object
text: only the trailing fence is removed by the `re.sub`, and the
leading '```json' line survives.  Moreover on any text that does
contain six consecutive backticks, `json_match.group(1)` raises
`IndexError`, because the pattern has no group 1. -/
theorem C2_code_eval :
    clean_json_response "```json\n\x7b\"a\": 1\x7d\n```" =
      .ok "```json\n\x7b\"a\": 1\x7d" ∧
    clean_json_response "`````` \x7b\"a\": 1\x7d" =
      .error (.other "no such group") := by
  exact ⟨rfl, rfl⟩

/-! ### Claim C5 -/

/-- C5, counterexample: the normalizer is not idempotent.  On
`'``` ```'` one application yields `'```'` (the `re.sub` deletes the
trailing ` ``` ` span only, and the remnant is not rescanned), but a
second application deletes the remnant too, yielding the empty
string. -/
theorem C5_counterexample :
    clean_json_response "``` ```" = .ok "```" ∧
    clean_json_response "```" = .ok "" ∧
    (Except.ok ("" : String) : Except PyErr String) ≠ .ok "```" := by
  refine ⟨rfl, rfl, fun h => ?_⟩
  exact absurd (Except.ok.inj h) (by decide)

/-- C5, amended: the normalizer is idempotent on every input whose
normal form is nonempty and free of fence markers (no three consecutive
backticks); a second application can differ only by stripping further
fence remnants, or by failing on an empty normal form. -/
theorem C5_theorem (x y : String) (hxy : clean_json_response x = .ok y)
    (hne : ¬ y.data = []) (hnt : hasTriple y.data = false) :
    clean_json_response y = .ok y := by
  by_cases hx : x.data = []
  · simp [clean_json_response, hx] at hxy
  · by_cases hs : hasSix (pyStrip x.data) = true
    · simp [clean_json_response, hx, hs] at hxy
    · rw [clean_json_response_ok hx (by simpa using hs)] at hxy
      have hy := Except.ok.inj hxy
      have hyd : y.data = pyStrip (subFenceEnd (pyStrip x.data)) := by
        rw [← hy]
      have hstrip : pyStrip y.data = y.data := by
        rw [hyd]
        exact pyStrip_idem _
      have hs6 : hasSix (pyStrip y.data) = false := by
        rw [hstrip]
        exact hasSix_eq_false_of_hasTriple hnt
      rw [clean_json_response_ok hne hs6, hstrip,
        subFenceEnd_of_no_triple hnt, hstrip]

/-- C5, witness: a stray-whitespace-wrapped JSON object normalizes to
the bare object, and normalizing again (via `C5_theorem`) is the
identity. -/
theorem C5_theorem_witness :
    clean_json_response "  \x7b\"ok\": true\x7d " = .ok "\x7b\"ok\": true\x7d" ∧
    clean_json_response "\x7b\"ok\": true\x7d" = .ok "\x7b\"ok\": true\x7d" := by
  have h1 : clean_json_response "  \x7b\"ok\": true\x7d " =
      .ok "\x7b\"ok\": true\x7d" := rfl
  exact ⟨h1, C5_theorem _ _ h1 (by decide) (by rfl)⟩

/-! ### Claim C3 -/

/-- C3, counterexample: a whitespace-only upstream response is truthy in
Python, so `_call_openai_api` does not raise on it — it returns the
*stripped* text, here the empty string; nor is a non-empty response
returned verbatim (it is stripped). -/
theorem C3_counterexample :
    extract_response (some " ") = .ok "" ∧
    call_openai_api (fun _ => .ok (some " ")) 0 = ([], .ok "") ∧
    extract_response (some " x ") = .ok "x" := by
  refine ⟨rfl, ?_, rfl⟩
  simp [call_openai_api, attempt_outcome, extract_response, MAX_RETRIES]
  rfl

/-- C3, amended: one gateway attempt fails only on falsy content
(`None` or the zero-length string) and otherwise returns the response
text stripped of surrounding whitespace (so a whitespace-only response
comes back as the empty string, and no response is returned
verbatim unless it has no surrounding whitespace). -/
theorem C3_theorem (s : String) :
    extract_response none = .error "Empty response from OpenAI API" ∧
    extract_response (some "") = .error "Empty response from OpenAI API" ∧
    (¬ s.data = [] → extract_response (some s) = .ok (pyStripS s)) := by
  refine ⟨rfl, rfl, fun h => ?_⟩
  simp [extract_response, h]

/-- C3, witness: `C3_theorem` applied to the concrete response
`" x "`. -/
theorem C3_theorem_witness : extract_response (some " x ") = .ok "x" := by
  have h0 := C3_theorem " x "
  have h := h0.2.2 (by decide)
  rw [h]
  rfl

/-! ### Claim C4 -/

theorem checkRequired_error_of_missing (fields : List String) (p : Payload) :
    ∀ f, f ∈ fields → p.lookup f = none →
    ∃ g, g ∈ fields ∧ p.lookup g = none ∧
      checkRequired fields p = .error ("Missing required field: " ++ g) := by
  induction fields with
  | nil => intro f hf _; simp at hf
  | cons f0 rest ih =>
    intro f hf hnone
    by_cases h0 : (p.lookup f0).isSome
    · have hf' : f ∈ rest := by
        rcases List.mem_cons.mp hf with h | h
        · subst h; rw [hnone] at h0; simp at h0
        · exact h
      obtain ⟨g, hg, hgn, hce⟩ := ih f hf' hnone
      exact ⟨g, List.mem_cons_of_mem _ hg, hgn, by simp [checkRequired, h0, hce]⟩
    · refine ⟨f0, List.mem_cons_self _ _, ?_, by simp [checkRequired, h0]⟩
      cases hl : p.lookup f0 with
      | none => rfl
      | some v => rw [hl] at h0; simp at h0

theorem checkScores_error_of_bad (fields : List String) (p : Payload) :
    ∀ f, f ∈ fields → scoreOk (p.lookup f) = false →
    ∃ m, checkScores fields p = .error m := by
  induction fields with
  | nil => intro f hf _; simp at hf
  | cons f0 rest ih =>
    intro f hf hbad
    by_cases h0 : scoreOk (p.lookup f0) = true
    · have hf' : f ∈ rest := by
        rcases List.mem_cons.mp hf with h | h
        · subst h; rw [hbad] at h0; exact absurd h0 (by simp)
        · exact h
      obtain ⟨m, hm⟩ := ih f hf' hbad
      exact ⟨m, by simp [checkScores, h0, hm]⟩
    · exact ⟨"Invalid score for " ++ f0 ++ ": " ++ pyRenderOpt (p.lookup f0),
        by simp [checkScores, h0]⟩

theorem validate_err_of_scoreOk_false {p : Payload} {f : String}
    (hf : f ∈ score_fields) (hbad : scoreOk (p.lookup f) = false) :
    ∃ m, validate_ai_output p = .error m := by
  cases hcr : checkRequired required_fields p with
  | error e =>
    exact ⟨e, by simp only [validate_ai_output, hcr]; rfl⟩
  | ok u =>
    obtain ⟨m, hm⟩ := checkScores_error_of_bad score_fields p f hf hbad
    cases u
    exact ⟨m, by simp only [validate_ai_output, hcr, hm]; rfl⟩

/-- C4, counterexample: the `required_fields` set of the validator has
17 entries, not 18; and a payload whose `fit_score` is the JSON boolean
`true` — a non-numeric JSON value — is accepted, because Python's `bool`
is a subclass of `int` and so passes
`isinstance(score, (int, float))`. -/
theorem C4_counterexample :
    required_fields.length = 17 ∧
    sample_payload_bool_score.lookup "fit_score" = some (JVal.bool true) ∧
    validate_ai_output sample_payload_bool_score = .ok () :=
  ⟨rfl, rfl, rfl⟩

/-- C4, amended: the validator rejects every payload missing any one of
its 17 required fields, reporting a missing-field violation (presence is
checked before ranges, failing fast on the first violation in field
order); and it rejects every payload in which a score field is neither a
JSON number nor a JSON boolean, or is a JSON number outside [0, 100]
inclusive — in particular `fit_score = 150` and `fit_score = -5`. -/
theorem C4_theorem (p : Payload) :
    (∀ f, f ∈ required_fields → p.lookup f = none →
      ∃ g, g ∈ required_fields ∧ p.lookup g = none ∧
        validate_ai_output p = .error ("Missing required field: " ++ g)) ∧
    (∀ f v, f ∈ score_fields → p.lookup f = some v →
      (∀ q, v ≠ JVal.num q) → (∀ b, v ≠ JVal.bool b) →
      ∃ m, validate_ai_output p = .error m) ∧
    (∀ f q, f ∈ score_fields → p.lookup f = some (.num q) →
      (q < 0 ∨ 100 < q) → ∃ m, validate_ai_output p = .error m) := by
  refine ⟨fun f hf hnone => ?_, fun f v hf hlook hnum hbool => ?_,
    fun f q hf hlook hrange => ?_⟩
  · obtain ⟨g, hg, hgn, hce⟩ :=
      checkRequired_error_of_missing required_fields p f hf hnone
    exact ⟨g, hg, hgn, by simp only [validate_ai_output, hce]; rfl⟩
  · refine validate_err_of_scoreOk_false hf ?_
    rw [hlook]
    cases v with
    | num q => exact absurd rfl (hnum q)
    | bool b => exact absurd rfl (hbool b)
    | str s => rfl
    | arr a => rfl
    | null => rfl
  · refine validate_err_of_scoreOk_false hf ?_
    rw [hlook]
    simp only [scoreOk, Bool.and_eq_false_iff, decide_eq_false_iff_not]
    rcases hrange with h | h
    · exact Or.inl (by linarith)
    · exact Or.inr (by linarith)

/-- C4, witness: `C4_theorem` rejects the concrete payload with
`fit_score = 150`. -/
theorem C4_theorem_witness : validate_ai_output sample_payload_150 ≠ .ok () := by
  obtain ⟨m, hm⟩ := (C4_theorem sample_payload_150).2.2 "fit_score" 150
    (by decide) rfl (Or.inr (by norm_num))
  simp [hm]

/-! ### Claim C6 -/

theorem call_openai_api_ok {oracle : Nat → Except String (Option String)}
    {rc : Nat} {s : String} (h : attempt_outcome oracle rc = .ok s) :
    call_openai_api oracle rc = ([], .ok s) := by
  unfold call_openai_api
  rw [h]

theorem call_openai_api_retry {oracle : Nat → Except String (Option String)}
    {rc : Nat} {e : String} (h : attempt_outcome oracle rc = .error e)
    (hrc : rc < MAX_RETRIES - 1) :
    call_openai_api oracle rc =
      (2 ^ rc :: (call_openai_api oracle (rc + 1)).1,
       (call_openai_api oracle (rc + 1)).2) := by
  conv_lhs => rw [call_openai_api]
  rw [h]
  simp [hrc]

theorem call_openai_api_last {oracle : Nat → Except String (Option String)}
    {rc : Nat} {e : String} (h : attempt_outcome oracle rc = .error e)
    (hrc : ¬ rc < MAX_RETRIES - 1) :
    call_openai_api oracle rc =
      ([], .error (.matcher
        ("OpenAI API failed after " ++ toString MAX_RETRIES ++
          " attempts: " ++ e))) := by
  conv_lhs => rw [call_openai_api]
  rw [h]
  simp [hrc]

/-- C6: the gateway makes at most `MAX_RETRIES` (3) attempts, sleeps
`2^i` seconds after the `i`-th failed attempt except the last (1s, then
2s), returns the first successful attempt's result without further
attempts, and after three failures raises an error reporting the
final (third) attempt's exception. -/
theorem C6_theorem (oracle : Nat → Except String (Option String)) :
    (call_openai_api oracle 0).1.length ≤ MAX_RETRIES - 1 ∧
    (call_openai_api oracle 0).1 =
      (List.range (call_openai_api oracle 0).1.length).map (fun i => 2 ^ i) ∧
    (∀ k s, k < MAX_RETRIES →
      (∀ j, j < k → ∃ e, attempt_outcome oracle j = .error e) →
      attempt_outcome oracle k = .ok s →
      call_openai_api oracle 0 = ((List.range k).map (fun i => 2 ^ i), .ok s)) ∧
    (∀ e0 e1 e2, attempt_outcome oracle 0 = .error e0 →
      attempt_outcome oracle 1 = .error e1 →
      attempt_outcome oracle 2 = .error e2 →
      call_openai_api oracle 0 =
        ([1, 2], .error (.matcher ("OpenAI API failed after 3 attempts: " ++ e2)))) := by
  have h0lt : (0 : Nat) < MAX_RETRIES - 1 := by norm_num [MAX_RETRIES]
  have h1lt : (1 : Nat) < MAX_RETRIES - 1 := by norm_num [MAX_RETRIES]
  have h2nlt : ¬ (2 : Nat) < MAX_RETRIES - 1 := by norm_num [MAX_RETRIES]
  have hpre : ("OpenAI API failed after " ++ toString MAX_RETRIES ++
      " attempts: " : String) = "OpenAI API failed after 3 attempts: " := rfl
  cases h0 : attempt_outcome oracle 0 with
  | ok s0 =>
    have hc : call_openai_api oracle 0 = ([], .ok s0) := call_openai_api_ok h0
    refine ⟨by rw [hc]; simp [MAX_RETRIES], by rw [hc]; rfl, ?_, ?_⟩
    · intro k s _ hprev hok
      match k with
      | 0 =>
        rw [h0] at hok
        injection hok with hs
        subst hs
        rw [hc]
        rfl
      | k + 1 =>
        obtain ⟨e, he⟩ := hprev 0 (by omega)
        rw [h0] at he
        simp at he
    · intro e0 e1 e2 he0 _ _
      simp at he0
  | error e0 =>
    have hr0 := call_openai_api_retry h0 h0lt
    cases h1 : attempt_outcome oracle 1 with
    | ok s1 =>
      have hc1 : call_openai_api oracle 1 = ([], .ok s1) := call_openai_api_ok h1
      have hc : call_openai_api oracle 0 = ([1], .ok s1) := by
        rw [hr0, hc1]
        rfl
      refine ⟨by rw [hc]; simp [MAX_RETRIES], by rw [hc]; rfl, ?_, ?_⟩
      · intro k s _ hprev hok
        match k with
        | 0 =>
          rw [h0] at hok
          simp at hok
        | 1 =>
          rw [h1] at hok
          injection hok with hs
          subst hs
          rw [hc]
          rfl
        | k + 2 =>
          obtain ⟨e, he⟩ := hprev 1 (by omega)
          rw [h1] at he
          simp at he
      · intro e0' e1' e2' _ he1 _
        simp at he1
    | error e1 =>
      have hr1 := call_openai_api_retry h1 h1lt
      cases h2 : attempt_outcome oracle 2 with
      | ok s2 =>
        have hc2 : call_openai_api oracle 2 = ([], .ok s2) := call_openai_api_ok h2
        have hc : call_openai_api oracle 0 = ([1, 2], .ok s2) := by
          rw [hr0, hr1, hc2]
          rfl
        refine ⟨by rw [hc]; simp [MAX_RETRIES], by rw [hc]; rfl, ?_, ?_⟩
        · intro k s hk hprev hok
          match k with
          | 0 =>
            rw [h0] at hok
            simp at hok
          | 1 =>
            rw [h1] at hok
            simp at hok
          | 2 =>
            rw [h2] at hok
            injection hok with hs
            subst hs
            rw [hc]
            rfl
          | k + 3 => omega
        · intro e0' e1' e2' _ _ he2
          simp at he2
      | error e2 =>
        have hc2 := call_openai_api_last h2 h2nlt
        have hc : call_openai_api oracle 0 =
            ([1, 2], .error (.matcher
              ("OpenAI API failed after 3 attempts: " ++ e2))) := by
          rw [hr0, hr1, hc2, hpre]
          rfl
        refine ⟨by rw [hc]; simp [MAX_RETRIES], by rw [hc]; rfl, ?_, ?_⟩
        · intro k s hk hprev hok
          match k with
          | 0 =>
            rw [h0] at hok
            simp at hok
          | 1 =>
            rw [h1] at hok
            simp at hok
          | 2 =>
            rw [h2] at hok
            simp at hok
          | k + 3 => omega
        · intro e0' e1' e2' he0' he1' he2'
          injection he2' with he
          subst he
          exact hc

/-- C6, witness: `C6_theorem` applied to an oracle that fails the first
two attempts and succeeds on the third: the result is the third
attempt's text after sleeps of 1s and 2s. -/
theorem C6_theorem_witness :
    call_openai_api
      (fun n => if n < 2 then .error "transient" else .ok (some "done")) 0 =
      ([1, 2], .ok "done") := by
  have hprev : ∀ j, j < 2 → ∃ e, attempt_outcome
      (fun n => if n < 2 then Except.error "transient"
                else Except.ok (some "done")) j = .error e := by
    intro j hj
    match j, hj with
    | 0, _ => exact ⟨"transient", rfl⟩
    | 1, _ => exact ⟨"transient", rfl⟩
  have hok : attempt_outcome
      (fun n => if n < 2 then Except.error "transient"
                else Except.ok (some "done")) 2 = .ok "done" := rfl
  have h := (C6_theorem _).2.2.1 2 "done" (by norm_num [MAX_RETRIES]) hprev hok
  rw [h]
  rfl

/-! ### Claim C7 -/

theorem save_eq_of_clean_fields_error {r : AIRemarksRec} {e : PyErr}
    (h : clean_fields r = .error e) : save_airemarks r = .error e := by
  simp only [save_airemarks, h]
  try rfl

theorem save_eq_of_clean_fields_ok {r : AIRemarksRec}
    (h : clean_fields r = .ok ()) : save_airemarks r = airemarks_clean r := by
  simp only [save_airemarks, h]
  try rfl

theorem clean_fields_ok_elim {r : AIRemarksRec} (h : clean_fields r = .ok ()) :
    decimalScoreOk r.fit_score = true ∧
    decimalScoreOk r.skills_match_score = true ∧
    decimalScoreOk r.experience_match_score = true ∧
    decimalScoreOk r.education_match_score = true ∧
    decimalScoreOk r.location_match_score = true := by
  unfold clean_fields at h
  split_ifs at h with hcond
  simp only [Bool.and_eq_true] at hcond
  tauto

theorem clean_fields_error_of_fit_bad {r : AIRemarksRec}
    (h : decimalScoreOk r.fit_score = false) :
    clean_fields r = .error (.validationError "field validation failed") := by
  unfold clean_fields
  simp [h]

theorem decimalScoreOk_bounds {v : Option ℚ} (h : decimalScoreOk v = true) :
    ∀ q, v = some q → 0 ≤ q ∧ q ≤ 100 := by
  intro q hq
  rw [hq] at h
  unfold decimalScoreOk at h
  simp at h
  exact h

theorem airemarks_clean_ok_elim {r r' : AIRemarksRec}
    (h : airemarks_clean r = .ok r') :
    (r' = r ∨ r' = { r with analyzed_at := true }) ∧
    (∀ q, r.fit_score = some q →
      ¬(80 ≤ q ∧ ¬(r.fit_level = "excellent" ∨ r.fit_level = "good"))) ∧
    (∀ q, r.fit_score = some q → ¬(q < 40 ∧ r.fit_level = "excellent")) := by
  unfold airemarks_clean at h
  cases hfs : r.fit_score with
  | none =>
    rw [hfs] at h
    dsimp only at h
    refine ⟨?_, fun q hq => by simp at hq, fun q hq => by simp at hq⟩
    by_cases hb : (r.analysis_status = "completed" && !r.analyzed_at) = true
    · rw [if_pos hb] at h
      exact Or.inr (Except.ok.inj h).symm
    · rw [if_neg hb] at h
      exact Or.inl (Except.ok.inj h).symm
  | some q0 =>
    rw [hfs] at h
    dsimp only at h
    by_cases h1 : 80 ≤ q0 ∧ ¬(r.fit_level = "excellent" ∨ r.fit_level = "good")
    · rw [if_pos h1] at h
      simp at h
    · rw [if_neg h1] at h
      by_cases h2 : q0 < 40 ∧ r.fit_level = "excellent"
      · rw [if_pos h2] at h
        simp at h
      · rw [if_neg h2] at h
        refine ⟨?_, fun q hq => ?_, fun q hq => ?_⟩
        · by_cases hb : (r.analysis_status = "completed" && !r.analyzed_at) = true
          · rw [if_pos hb] at h
            exact Or.inr (Except.ok.inj h).symm
          · rw [if_neg hb] at h
            exact Or.inl (Except.ok.inj h).symm
        · injection hq with hq'
          subst hq'
          exact h1
        · injection hq with hq'
          subst hq'
          exact h2

theorem airemarks_clean_error_of_high {r : AIRemarksRec} {q : ℚ}
    (hfs : r.fit_score = some q) (h80 : 80 ≤ q)
    (hne : ¬(r.fit_level = "excellent" ∨ r.fit_level = "good")) :
    airemarks_clean r = .error (.validationError
      "High fit score should correspond to Excellent or Good fit level") := by
  unfold airemarks_clean
  rw [hfs]
  dsimp only
  rw [if_pos ⟨h80, hne⟩]

theorem airemarks_clean_error_of_low {r : AIRemarksRec} {q : ℚ}
    (hfs : r.fit_score = some q) (h40 : q < 40)
    (hex : r.fit_level = "excellent") :
    airemarks_clean r = .error (.validationError
      "Low fit score cannot be Excellent fit level") := by
  unfold airemarks_clean
  rw [hfs]
  dsimp only
  rw [if_neg (by rintro ⟨h80, -⟩; linarith), if_pos ⟨h40, hex⟩]

/-- C7: every record that `AIRemarks.save()` (i.e. `full_clean`)
accepts satisfies the record invariant — all five score fields that are
present lie in [0,100], `fit_score ≥ 80` forces `fit_level` in
{excellent, good}, and `fit_score < 40` excludes `excellent` — and
`save` rejects any record violating one of these conditions, so no
persisted record violates them. -/
theorem C7_theorem (r : AIRemarksRec) :
    (∀ r', save_airemarks r = .ok r' →
      (∀ q, r'.fit_score = some q → 0 ≤ q ∧ q ≤ 100) ∧
      (∀ q, r'.skills_match_score = some q → 0 ≤ q ∧ q ≤ 100) ∧
      (∀ q, r'.experience_match_score = some q → 0 ≤ q ∧ q ≤ 100) ∧
      (∀ q, r'.education_match_score = some q → 0 ≤ q ∧ q ≤ 100) ∧
      (∀ q, r'.location_match_score = some q → 0 ≤ q ∧ q ≤ 100) ∧
      (∀ q, r'.fit_score = some q → 80 ≤ q →
        r'.fit_level = "excellent" ∨ r'.fit_level = "good") ∧
      (∀ q, r'.fit_score = some q → q < 40 → r'.fit_level ≠ "excellent")) ∧
    (∀ q, r.fit_score = some q →
      (q < 0 ∨ 100 < q ∨
       (80 ≤ q ∧ r.fit_level ≠ "excellent" ∧ r.fit_level ≠ "good") ∨
       (q < 40 ∧ r.fit_level = "excellent")) →
      ∃ e, save_airemarks r = .error e) := by
  constructor
  · intro r' hok
    have hcf : clean_fields r = .ok () := by
      cases hcf : clean_fields r with
      | ok u => cases u; rfl
      | error e => rw [save_eq_of_clean_fields_error hcf] at hok; simp at hok
    rw [save_eq_of_clean_fields_ok hcf] at hok
    obtain ⟨hshape, hhigh, hlow⟩ := airemarks_clean_ok_elim hok
    obtain ⟨hb1, hb2, hb3, hb4, hb5⟩ := clean_fields_ok_elim hcf
    have hfields : r'.fit_score = r.fit_score ∧
        r'.skills_match_score = r.skills_match_score ∧
        r'.experience_match_score = r.experience_match_score ∧
        r'.education_match_score = r.education_match_score ∧
        r'.location_match_score = r.location_match_score ∧
        r'.fit_level = r.fit_level := by
      rcases hshape with h | h <;> subst h <;> exact ⟨rfl, rfl, rfl, rfl, rfl, rfl⟩
    obtain ⟨hf1, hf2, hf3, hf4, hf5, hfl⟩ := hfields
    refine ⟨fun q hq => decimalScoreOk_bounds hb1 q (hf1 ▸ hq),
      fun q hq => decimalScoreOk_bounds hb2 q (hf2 ▸ hq),
      fun q hq => decimalScoreOk_bounds hb3 q (hf3 ▸ hq),
      fun q hq => decimalScoreOk_bounds hb4 q (hf4 ▸ hq),
      fun q hq => decimalScoreOk_bounds hb5 q (hf5 ▸ hq),
      fun q hq h80 => ?_, fun q hq h40 => ?_⟩
    · rw [hfl]
      have := hhigh q (hf1 ▸ hq)
      tauto
    · rw [hfl]
      have := hlow q (hf1 ▸ hq)
      tauto
  · intro q hq hviol
    rcases hviol with h | h | ⟨h80, hne, hng⟩ | ⟨h40, hex⟩
    · refine ⟨_, save_eq_of_clean_fields_error (clean_fields_error_of_fit_bad ?_)⟩
      rw [hq]
      unfold decimalScoreOk
      simp
      intro h0
      linarith
    · refine ⟨_, save_eq_of_clean_fields_error (clean_fields_error_of_fit_bad ?_)⟩
      rw [hq]
      unfold decimalScoreOk
      simp
      intro h0
      linarith
    · cases hcf : clean_fields r with
      | error e => exact ⟨e, save_eq_of_clean_fields_error hcf⟩
      | ok u =>
        cases u
        exact ⟨.validationError
          "High fit score should correspond to Excellent or Good fit level",
          by rw [save_eq_of_clean_fields_ok hcf]
             exact airemarks_clean_error_of_high hq h80 (by tauto)⟩
    · cases hcf : clean_fields r with
      | error e => exact ⟨e, save_eq_of_clean_fields_error hcf⟩
      | ok u =>
        cases u
        exact ⟨.validationError "Low fit score cannot be Excellent fit level",
          by rw [save_eq_of_clean_fields_ok hcf]
             exact airemarks_clean_error_of_low hq h40 hex⟩

/-- C7, witness: `C7_theorem` applied to a concrete completed record
with `fit_score = 90`, which `save` accepts and whose fit level is
consequently `excellent` or `good`. -/
theorem C7_theorem_witness :
    save_airemarks sample_completed_rec = .ok sample_completed_rec ∧
    (sample_completed_rec.fit_level = "excellent" ∨
     sample_completed_rec.fit_level = "good") := by
  have h : save_airemarks sample_completed_rec = .ok sample_completed_rec := by
    rfl
  exact ⟨h, ((C7_theorem sample_completed_rec).1 _ h).2.2.2.2.2.1 90 rfl
    (by norm_num)⟩

/-! ### Claim C8 -/

theorem find_completed_of_rowsFor {store : List StoredRow} {j s : Nat}
    {row : StoredRow} (hrows : rowsFor store j s = [row])
    (hcomp : row.record.analysis_status = "completed") :
    find_completed store j s = some row := by
  induction store with
  | nil => simp [rowsFor] at hrows
  | cons r0 rest ih =>
    by_cases hm : rowMatches j s r0 = true
    · have : r0 :: rowsFor rest j s = [row] := by
        rw [← hrows]
        simp [rowsFor, List.filter_cons, hm]
      have hr0 : r0 = row := by
        injection this
      subst hr0
      unfold find_completed
      rw [List.find?_cons_of_pos]
      simp [hm, hcomp]
    · have hrest : rowsFor rest j s = [row] := by
        rw [← hrows]
        simp [rowsFor, List.filter_cons, hm]
      unfold find_completed at ih ⊢
      rw [List.find?_cons_of_neg]
      · exact ih hrest
      · simp [hm]

/-- C8: if a (job, candidate) pair has exactly one stored record and it
is `completed`, then `analyze_application` returns that record unchanged
without consulting the analyzer at all (the store is untouched), and
after any number `n` of repeated invocations the store — hence the
single record for the pair — is unchanged. -/
theorem C8_theorem
    (runAnalyze : Unit → List AIRemarksRec × Except PyErr AIRemarksRec)
    (store : List StoredRow) (j s : Nat) (row : StoredRow)
    (hrows : rowsFor store j s = [row])
    (hcomp : row.record.analysis_status = "completed") :
    analyze_application runAnalyze store j s = (store, .ok row.record) ∧
    (∀ n, iterate_analyze runAnalyze j s n store = store) ∧
    (∀ n, rowsFor (iterate_analyze runAnalyze j s n store) j s = [row]) := by
  have hfind := find_completed_of_rowsFor hrows hcomp
  have happ : analyze_application runAnalyze store j s = (store, .ok row.record) := by
    unfold analyze_application
    rw [hfind]
  have hiter : ∀ n, iterate_analyze runAnalyze j s n store = store := by
    intro n
    induction n with
    | zero => rfl
    | succ n ih =>
      unfold iterate_analyze
      rw [happ]
      exact ih
  exact ⟨happ, hiter, fun n => by rw [hiter n]; exact hrows⟩

/-- C8, witness: `C8_theorem` on a concrete one-row store holding a
completed record for the pair (1, 2): five repeated invocations leave
the store unchanged and each call returns the stored record. -/
theorem C8_theorem_witness :
    analyze_application (fun _ => ([], .error (.other "not invoked")))
        [⟨1, 2, sample_completed_rec⟩] 1 2 =
      ([⟨1, 2, sample_completed_rec⟩], .ok sample_completed_rec) ∧
    iterate_analyze (fun _ => ([], .error (.other "not invoked"))) 1 2 5
        [⟨1, 2, sample_completed_rec⟩] =
      [⟨1, 2, sample_completed_rec⟩] := by
  have h := C8_theorem (fun _ => ([], .error (.other "not invoked")))
    [⟨1, 2, sample_completed_rec⟩] 1 2 ⟨1, 2, sample_completed_rec⟩
    (by rfl) (by rfl)
  exact ⟨h.1, h.2.1 5⟩

/-! ### Claim C9 -/

/-- C9: the batch operation returns exactly the records of the
candidates whose individual analysis succeeded, in input order — a
candidate whose analysis raises is skipped without aborting the rest —
so the output is the `filterMap` of the per-candidate outcomes and its
length is at most the input length. -/
theorem C9_theorem {α : Type} (runOne : α → Except PyErr AIRemarksRec)
    (cs : List α) :
    analyze_multiple_candidates runOne cs =
      cs.filterMap (fun c => (runOne c).toOption) ∧
    (analyze_multiple_candidates runOne cs).length ≤ cs.length := by
  induction cs with
  | nil => exact ⟨rfl, by simp [analyze_multiple_candidates]⟩
  | cons c rest ih =>
    cases hc : runOne c with
    | ok r =>
      refine ⟨?_, ?_⟩
      · simp [analyze_multiple_candidates, hc, List.filterMap_cons, ih.1,
          Except.toOption]
      · simp only [analyze_multiple_candidates, hc, List.length_cons]
        have := ih.2
        omega
    | error e =>
      refine ⟨?_, ?_⟩
      · simp [analyze_multiple_candidates, hc, List.filterMap_cons, ih.1,
          Except.toOption]
      · simp only [analyze_multiple_candidates, hc]
        have := ih.2
        simp only [List.length_cons]
        omega

/-! ### Claim C10 -/

theorem populate_fields (r : AIRemarksRec) (p : Payload) (d : Int) :
    (populate_ai_remarks r p d).analysis_status = "completed" ∧
    (populate_ai_remarks r p d).analyzed_at = true ∧
    (populate_ai_remarks r p d).confidence_score = some 95 ∧
    (populate_ai_remarks r p d).ai_model_version = r.ai_model_version := by
  unfold populate_ai_remarks
  exact ⟨rfl, rfl, rfl, rfl⟩

theorem except_bind_ok {ε α β : Type} (x : α) (f : α → Except ε β) :
    (Except.ok x : Except ε α) >>= f = f x := rfl

theorem except_bind_error {ε α β : Type} (e : ε) (f : α → Except ε β) :
    (Except.error e : Except ε α) >>= f = .error e := rfl

/-- Inverting a successful pipeline run: each stage succeeded and the
returned record is the saved population of some validated payload. -/
theorem analyze_pipeline_ok_elim {jsonParse : String → Except String Payload}
    {oracle : Nat → Except String (Option String)} {elapsed : Int}
    {rec : AIRemarksRec}
    (h : analyze_pipeline jsonParse oracle elapsed = .ok rec) :
    ∃ parsed, save_airemarks
      (populate_ai_remarks create_ai_remarks_object parsed elapsed) = .ok rec := by
  unfold analyze_pipeline at h
  cases hcall : (call_openai_api oracle 0).2 with
  | error e =>
    rw [hcall, except_bind_error] at h
    simp at h
  | ok raw =>
    rw [hcall, except_bind_ok] at h
    cases hclean : clean_json_response raw with
    | error e =>
      rw [hclean, except_bind_error] at h
      simp at h
    | ok cleaned =>
      rw [hclean, except_bind_ok] at h
      dsimp only at h
      cases hparse : jsonParse cleaned with
      | error e =>
        rw [hparse] at h
        dsimp only at h
        rw [except_bind_error] at h
        simp at h
      | ok parsed =>
        rw [hparse] at h
        dsimp only at h
        rw [except_bind_ok] at h
        cases hval : validate_ai_output parsed with
        | error m =>
          rw [hval] at h
          dsimp only [Except.mapError] at h
          rw [except_bind_error] at h
          simp at h
        | ok u =>
          cases u
          rw [hval] at h
          dsimp only [Except.mapError] at h
          rw [except_bind_ok] at h
          exact ⟨parsed, h⟩

/-- C10: every record a successful `analyze` run returns has the
constant confidence score 95, the constant model version "gpt-4o-mini",
and `analyzed_at` set, regardless of the JSON parser, the gateway
responses, and the elapsed time. -/
theorem C10_theorem (jsonParse : String → Except String Payload)
    (oracle : Nat → Except String (Option String)) (elapsed : Int)
    (saved : List AIRemarksRec) (rec : AIRemarksRec)
    (h : analyze jsonParse oracle elapsed = (saved, .ok rec)) :
    rec.confidence_score = some 95 ∧
    rec.ai_model_version = "gpt-4o-mini" ∧
    rec.analyzed_at = true ∧
    rec.analysis_status = "completed" := by
  unfold analyze at h
  cases hp : analyze_pipeline jsonParse oracle elapsed with
  | error e =>
    rw [hp] at h
    cases e with
    | matcher m => simp at h
    | validationError m => simp at h
    | other m =>
      dsimp only at h
      cases hs : save_airemarks (failed_record m elapsed) with
      | ok rec0 => rw [hs] at h; simp at h
      | error e0 => rw [hs] at h; simp at h
  | ok rec' =>
    rw [hp] at h
    have hrec : rec' = rec := by
      simp at h
      exact h.2
    subst hrec
    obtain ⟨parsed, hsave⟩ := analyze_pipeline_ok_elim hp
    have hcf : clean_fields
        (populate_ai_remarks create_ai_remarks_object parsed elapsed) =
        .ok () := by
      cases hcf : clean_fields
          (populate_ai_remarks create_ai_remarks_object parsed elapsed) with
      | ok v => cases v; rfl
      | error e =>
        rw [save_eq_of_clean_fields_error hcf] at hsave
        simp at hsave
    rw [save_eq_of_clean_fields_ok hcf] at hsave
    obtain ⟨hshape, -, -⟩ := airemarks_clean_ok_elim hsave
    obtain ⟨hst, han, hco, hmv⟩ :=
      populate_fields create_ai_remarks_object parsed elapsed
    rcases hshape with hsh | hsh <;> subst hsh <;>
      exact ⟨hco, hmv, han, hst⟩

/-- C10, witness: a concrete successful run (`sample_payload` parsed
from a one-shot gateway response) yields `sample_record`, whose
constants `C10_theorem` certifies. -/
theorem C10_theorem_witness :
    analyze (fun _ => .ok sample_payload) (fun _ => .ok (some "{}")) 0 =
      ([sample_record], .ok sample_record) ∧
    sample_record.confidence_score = some 95 ∧
    sample_record.ai_model_version = "gpt-4o-mini" ∧
    sample_record.analyzed_at = true := by
  have hcall : call_openai_api (fun _ => Except.ok (some "{}")) 0 =
      ([], .ok "{}") := by
    simp [call_openai_api, attempt_outcome, extract_response]
    rfl
  have hp : analyze_pipeline (fun _ => .ok sample_payload)
      (fun _ => .ok (some "{}")) 0 = .ok sample_record := by
    unfold analyze_pipeline
    rw [hcall]
    rfl
  have h : analyze (fun _ => .ok sample_payload)
      (fun _ => .ok (some "{}")) 0 = ([sample_record], .ok sample_record) := by
    unfold analyze
    rw [hp]
  have hc := C10_theorem _ _ _ _ _ h
  exact ⟨h, hc.1, hc.2.1, hc.2.2.1⟩

/-! ### Claim C1 -/

theorem analyze_pipeline_gateway_err {jsonParse : String → Except String Payload}
    {oracle : Nat → Except String (Option String)} {elapsed : Int} {e : PyErr}
    (h : (call_openai_api oracle 0).2 = .error e) :
    analyze_pipeline jsonParse oracle elapsed = .error e := by
  unfold analyze_pipeline
  rw [h, except_bind_error]

theorem analyze_pipeline_clean_err {jsonParse : String → Except String Payload}
    {oracle : Nat → Except String (Option String)} {elapsed : Int}
    {raw : String} {e : PyErr}
    (hc : (call_openai_api oracle 0).2 = .ok raw)
    (hcl : clean_json_response raw = .error e) :
    analyze_pipeline jsonParse oracle elapsed = .error e := by
  unfold analyze_pipeline
  rw [hc, except_bind_ok]
  dsimp only
  rw [hcl, except_bind_error]

theorem analyze_pipeline_json_err {jsonParse : String → Except String Payload}
    {oracle : Nat → Except String (Option String)} {elapsed : Int}
    {raw cleaned : String} {e : String}
    (hc : (call_openai_api oracle 0).2 = .ok raw)
    (hcl : clean_json_response raw = .ok cleaned)
    (hj : jsonParse cleaned = .error e) :
    analyze_pipeline jsonParse oracle elapsed =
      .error (.matcher ("Invalid JSON from OpenAI: " ++ e)) := by
  unfold analyze_pipeline
  rw [hc, except_bind_ok]
  dsimp only
  rw [hcl, except_bind_ok]
  rw [hj]
  dsimp only
  rw [except_bind_error]

theorem analyze_pipeline_validate_err {jsonParse : String → Except String Payload}
    {oracle : Nat → Except String (Option String)} {elapsed : Int}
    {raw cleaned : String} {parsed : Payload} {m : String}
    (hc : (call_openai_api oracle 0).2 = .ok raw)
    (hcl : clean_json_response raw = .ok cleaned)
    (hj : jsonParse cleaned = .ok parsed)
    (hv : validate_ai_output parsed = .error m) :
    analyze_pipeline jsonParse oracle elapsed = .error (.matcher m) := by
  unfold analyze_pipeline
  rw [hc, except_bind_ok]
  dsimp only
  rw [hcl, except_bind_ok]
  rw [hj]
  dsimp only
  rw [except_bind_ok]
  rw [hv]
  dsimp only [Except.mapError]
  rw [except_bind_error]

theorem analyze_of_pipeline_matcher {jsonParse : String → Except String Payload}
    {oracle : Nat → Except String (Option String)} {elapsed : Int} {m : String}
    (h : analyze_pipeline jsonParse oracle elapsed = .error (.matcher m)) :
    analyze jsonParse oracle elapsed = ([], .error (.matcher m)) := by
  unfold analyze
  rw [h]

theorem save_failed_record {m : String} {elapsed : Int} (h : 0 ≤ elapsed) :
    save_airemarks (failed_record m elapsed) = .ok (failed_record m elapsed) := by
  have hcf : clean_fields (failed_record m elapsed) = .ok () := by
    unfold clean_fields failed_record create_ai_remarks_object
    simp [decimalScoreOk, fitLevelChoices, statusChoices, h]
  rw [save_eq_of_clean_fields_ok hcf]
  unfold airemarks_clean failed_record create_ai_remarks_object
  rfl

/-- C1, counterexample: a run whose gateway always fails raises the
retry-exhaustion `AIMatcherException` to the caller but persists *no*
record at all (the saved-records component is empty): the known
exceptions are re-raised by `except (AIMatcherException,
ValidationError): raise` before any failure-path save. -/
theorem C1_counterexample :
    analyze (fun _ => .error "unused") (fun _ => .error "boom") 0 =
      ([], .error (.matcher "OpenAI API failed after 3 attempts: boom")) := by
  have hcall : (call_openai_api (fun _ => Except.error "boom") 0).2 =
      .error (.matcher "OpenAI API failed after 3 attempts: boom") := by
    simp [call_openai_api, attempt_outcome, MAX_RETRIES]
    rfl
  exact analyze_of_pipeline_matcher (analyze_pipeline_gateway_err hcall)

/-- C1, amended: when a pipeline stage fails with a known exception —
gateway retry exhaustion, malformed JSON from the model, or schema
validation failure — `analyze` re-raises it and persists nothing; a
record with status `failed` and populated `error_message` is persisted
only for an unexpected exception (the `IndexError` of the fence regex),
and even then only because its own save succeeds. -/
theorem C1_theorem (jsonParse : String → Except String Payload)
    (oracle : Nat → Except String (Option String)) (elapsed : Int) :
    (∀ m, (call_openai_api oracle 0).2 = .error (.matcher m) →
      analyze jsonParse oracle elapsed = ([], .error (.matcher m))) ∧
    (∀ raw cleaned e, (call_openai_api oracle 0).2 = .ok raw →
      clean_json_response raw = .ok cleaned → jsonParse cleaned = .error e →
      analyze jsonParse oracle elapsed =
        ([], .error (.matcher ("Invalid JSON from OpenAI: " ++ e)))) ∧
    (∀ raw cleaned parsed m, (call_openai_api oracle 0).2 = .ok raw →
      clean_json_response raw = .ok cleaned → jsonParse cleaned = .ok parsed →
      validate_ai_output parsed = .error m →
      analyze jsonParse oracle elapsed = ([], .error (.matcher m))) ∧
    (∀ raw m, 0 ≤ elapsed → (call_openai_api oracle 0).2 = .ok raw →
      clean_json_response raw = .error (.other m) →
      analyze jsonParse oracle elapsed =
        ([failed_record m elapsed],
         .error (.matcher ("Unexpected error during AI analysis: " ++ m))) ∧
      (failed_record m elapsed).analysis_status = "failed" ∧
      (failed_record m elapsed).error_message = m) := by
  refine ⟨fun m hcall => ?_, fun raw cleaned e hcall hclean hj => ?_,
    fun raw cleaned parsed m hcall hclean hj hv => ?_,
    fun raw m hel hcall hclean => ⟨?_, rfl, rfl⟩⟩
  · exact analyze_of_pipeline_matcher (analyze_pipeline_gateway_err hcall)
  · exact analyze_of_pipeline_matcher (analyze_pipeline_json_err hcall hclean hj)
  · exact analyze_of_pipeline_matcher
      (analyze_pipeline_validate_err hcall hclean hj hv)
  · have hp : analyze_pipeline jsonParse oracle elapsed = .error (.other m) :=
      analyze_pipeline_clean_err hcall hclean
    unfold analyze
    rw [hp]
    dsimp only
    rw [save_failed_record hel]

/-- C1, witness: `C1_theorem` on a concrete run whose gateway succeeds
but whose parsed payload is empty: the schema validator's missing-field
exception reaches the caller with no record persisted. -/
theorem C1_theorem_witness :
    analyze (fun _ => .ok ([] : Payload)) (fun _ => .ok (some "{}")) 0 =
      ([], .error (.matcher "Missing required field: fit_score")) := by
  have hcall : (call_openai_api (fun _ => Except.ok (some "{}")) 0).2 =
      .ok "{}" := by
    simp [call_openai_api, attempt_outcome, extract_response]
    rfl
  exact (C1_theorem _ _ 0).2.2.1 "{}" "{}" [] "Missing required field: fit_score"
    hcall rfl rfl rfl

end HyBackend
